import Mathlib

/-!
Verification of the BayesPy demo script `bayespy/demos/demo_lssm_drift.py`.

Two complementary shallow embeddings of the script are developed here.

1. A statement-trace model: each top-level Python statement of
   `simulate_drifting_lssm`, `run_dlssm`, `run_lssm` and `run` is embedded as
   a `Stmt` carrying the module-level names the statement looks up (in
   evaluation order: the callee of a call is resolved before its arguments)
   and the observable events it emits (node construction, `observe`, `VB`
   construction, `update` calls, rotations, plotting).  Executing a statement
   list resolves names against the module environment; a lookup of a name
   that is neither imported nor defined raises a `NameError`, which aborts
   the execution exactly as in Python.

2. A numeric model of `simulate_drifting_lssm` over `ℚ`, with the global
   NumPy pseudo-random stream abstracted as a function `g : ℕ → ℚ` handing
   out the successive `randn` draws, and `np.cos`/`np.sin` abstracted as
   function parameters.  Machine floats are idealised as rationals; none of
   the claims checked against this model depend on rounding.
-/

namespace LssmDrift

/-- Module-level names the script can reference: the imported modules and
node classes, the four functions defined in the file, the builtins used,
and the four names `Gaussian`, `diagonal`, `Dot`, `Normal` that `run_lssm`
references although nothing imports or defines them. -/
inductive GName where
  | np | scipy | plt
  | GaussianMarkovChain | GaussianArrayARD | Gamma | SumMultiply
  | utils | random | VB | transformations | bpplt
  | simulate_drifting_lssm | run_dlssm | run_lssm | run
  | range | print
  | Gaussian | diagonal | Dot | Normal
deriving DecidableEq

/-- Model nodes constructed by the two model-building functions. -/
inductive NodeId where
  | alpha | A | S | beta | B | BS | X | gamma | C | tau | F | Y | CX
deriving DecidableEq

/-- Rotation helper objects that the script can construct. -/
inductive RotId where
  | rotA | rotB | rotC | rotS | rotX | R_X | R_S | R
deriving DecidableEq

/-- Plotting calls. -/
inductive PlotId where
  | figure | iterByNodes | tsNormal | tsLine | tsDots | tsGaussMC
deriving DecidableEq

/-- Observable events emitted by the statements of the script. -/
inductive Ev where
  | seed
  | simulate
  | maskSetup
  | construct (n : NodeId)
  | initNode (n : NodeId)
  | observe
  | vb
  | update (n : NodeId)
  | printLine (n : NodeId)
  | mkRotation (r : RotId)
  | doRotate (r : RotId)
  | plotFig (p : PlotId)
deriving DecidableEq

/-- Python exceptions surfacing from the script: an unresolved module-level
name, or an arbitrary exception raised inside an external library call. -/
inductive PyErr where
  | nameError (n : GName)
  | libError (k : ℕ)
deriving DecidableEq

/-- One embedded Python statement: the module-level names it references in
evaluation order, and the events its successful execution emits. -/
structure Stmt where
  uses : List GName
  ev : List Ev
deriving DecidableEq

/-- Events of a statement list, in program order. -/
def evsOf : List Stmt → List Ev
  | [] => []
  | s :: rest => s.ev ++ evsOf rest

/-- Execute a statement list under a per-statement semantics `sem`: the
first statement on which `sem` signals an exception aborts the run, and the
exception is returned unchanged (the script installs no handler anywhere).
The first component is the list of events emitted before the abort. -/
def runExt (sem : Stmt → Option PyErr) : List Stmt → List Ev × Option PyErr
  | [] => ([], none)
  | s :: rest =>
    match sem s with
    | some e => ([], some e)
    | none =>
      let r := runExt sem rest
      (s.ev ++ r.1, r.2)

/-- Name-resolution semantics: a statement raises `NameError n` for the
first referenced name `n` that is not bound in the module environment. -/
def lookupFail (env : List GName) (s : Stmt) : Option PyErr :=
  match s.uses.find? (fun n => decide (n ∉ env)) with
  | some n => some (PyErr.nameError n)
  | none => none

/-- Execute a statement list with Python name resolution against `env`. -/
def execStmts (env : List GName) (l : List Stmt) : List Ev × Option PyErr :=
  runExt (lookupFail env) l

/-- `maxiter` identical loop iterations, as produced by
`for ind in range(maxiter)` with a body that does not depend on `ind`. -/
def repeatList {α : Type} (m : ℕ) (l : List α) : List α :=
  match m with
  | 0 => []
  | k + 1 => l ++ repeatList k l

/-- The module environment of `demo_lssm_drift.py`: the twelve imported
names, the four functions the file defines, and the builtins it calls.
`Gaussian`, `diagonal`, `Dot` and `Normal` are absent. -/
def fileEnv : List GName :=
  [GName.np, GName.scipy, GName.plt,
   GName.GaussianMarkovChain, GName.GaussianArrayARD, GName.Gamma,
   GName.SumMultiply, GName.utils, GName.random, GName.VB,
   GName.transformations, GName.bpplt,
   GName.simulate_drifting_lssm, GName.run_dlssm, GName.run_lssm, GName.run,
   GName.range, GName.print]

/-- The local flag `rotate = False` set inside `run_dlssm`. -/
def dlssmRotateFlag : Bool := false

/-- The rotation-construction block of `run_dlssm`, guarded by `if rotate:`
(rotB, rotX, rotC, R_X; then rotA, rotS, rotB, R_S). -/
def dlssmRotStmts : List Stmt :=
  [⟨[GName.transformations], [Ev.mkRotation RotId.rotB]⟩,
   ⟨[GName.transformations], [Ev.mkRotation RotId.rotX]⟩,
   ⟨[GName.transformations], [Ev.mkRotation RotId.rotC]⟩,
   ⟨[GName.transformations], [Ev.mkRotation RotId.R_X]⟩,
   ⟨[GName.transformations], [Ev.mkRotation RotId.rotA]⟩,
   ⟨[GName.transformations], [Ev.mkRotation RotId.rotS]⟩,
   ⟨[GName.transformations], [Ev.mkRotation RotId.rotB]⟩,
   ⟨[GName.transformations], [Ev.mkRotation RotId.R_S]⟩]

/-- Straight-line prefix of `run_dlssm`: shape extraction, the node
constructions with their initialisations, `Y.observe(y, mask=mask)`, the
`VB(...)` constructor, the `rotate = False` assignment and the (dead)
rotation-construction block. -/
def dlssmSetup : List Stmt :=
  [⟨[GName.np], []⟩,
   ⟨[GName.Gamma], [Ev.construct NodeId.alpha]⟩,
   ⟨[GName.GaussianArrayARD, GName.np], [Ev.construct NodeId.A]⟩,
   ⟨[GName.np], [Ev.initNode NodeId.A]⟩,
   ⟨[GName.GaussianMarkovChain, GName.np], [Ev.construct NodeId.S]⟩,
   ⟨[GName.np], [Ev.initNode NodeId.S]⟩,
   ⟨[GName.Gamma], [Ev.construct NodeId.beta]⟩,
   ⟨[GName.np], []⟩,
   ⟨[GName.np], []⟩,
   ⟨[GName.GaussianArrayARD], [Ev.construct NodeId.B]⟩,
   ⟨[GName.np], [Ev.initNode NodeId.B]⟩,
   ⟨[GName.SumMultiply, GName.np], [Ev.construct NodeId.BS]⟩,
   ⟨[GName.GaussianMarkovChain, GName.np], [Ev.construct NodeId.X]⟩,
   ⟨[GName.np], [Ev.initNode NodeId.X]⟩,
   ⟨[GName.Gamma], [Ev.construct NodeId.gamma]⟩,
   ⟨[GName.GaussianArrayARD], [Ev.construct NodeId.C]⟩,
   ⟨[], [Ev.initNode NodeId.C]⟩,
   ⟨[GName.Gamma], [Ev.construct NodeId.tau]⟩,
   ⟨[GName.SumMultiply], [Ev.construct NodeId.F]⟩,
   ⟨[GName.GaussianArrayARD], [Ev.construct NodeId.Y]⟩,
   ⟨[], [Ev.observe]⟩,
   ⟨[GName.VB], [Ev.vb]⟩,
   ⟨[], []⟩]
  ++ (if dlssmRotateFlag then dlssmRotStmts else [])

/-- One iteration of the `for ind in range(maxiter)` loop of `run_dlssm`:
a `print` followed by `Q.update(node)` for each of X, S, A, alpha, B, beta,
C, gamma, tau, and the rotation calls guarded by the dead `if rotate:`. -/
def dlssmIter : List Stmt :=
  [⟨[GName.print], [Ev.printLine NodeId.X]⟩, ⟨[], [Ev.update NodeId.X]⟩,
   ⟨[GName.print], [Ev.printLine NodeId.S]⟩, ⟨[], [Ev.update NodeId.S]⟩,
   ⟨[GName.print], [Ev.printLine NodeId.A]⟩, ⟨[], [Ev.update NodeId.A]⟩,
   ⟨[GName.print], [Ev.printLine NodeId.alpha]⟩, ⟨[], [Ev.update NodeId.alpha]⟩,
   ⟨[GName.print], [Ev.printLine NodeId.B]⟩, ⟨[], [Ev.update NodeId.B]⟩,
   ⟨[GName.print], [Ev.printLine NodeId.beta]⟩, ⟨[], [Ev.update NodeId.beta]⟩,
   ⟨[GName.print], [Ev.printLine NodeId.C]⟩, ⟨[], [Ev.update NodeId.C]⟩,
   ⟨[GName.print], [Ev.printLine NodeId.gamma]⟩, ⟨[], [Ev.update NodeId.gamma]⟩,
   ⟨[GName.print], [Ev.printLine NodeId.tau]⟩, ⟨[], [Ev.update NodeId.tau]⟩]
  ++ (if dlssmRotateFlag
      then [⟨[], [Ev.doRotate RotId.R_X]⟩, ⟨[], [Ev.doRotate RotId.R_S]⟩]
      else [])

/-- Plotting epilogue of `run_dlssm`: `Q.plot_iteration_by_nodes()`, then
three figures (observation space, latent space, drift space). -/
def dlssmPlots : List Stmt :=
  [⟨[], [Ev.plotFig PlotId.iterByNodes]⟩,
   ⟨[GName.plt], [Ev.plotFig PlotId.figure]⟩,
   ⟨[GName.bpplt], [Ev.plotFig PlotId.tsNormal]⟩,
   ⟨[GName.bpplt], [Ev.plotFig PlotId.tsLine]⟩,
   ⟨[GName.bpplt], [Ev.plotFig PlotId.tsDots]⟩,
   ⟨[GName.plt], [Ev.plotFig PlotId.figure]⟩,
   ⟨[GName.bpplt], [Ev.plotFig PlotId.tsGaussMC]⟩,
   ⟨[GName.plt], [Ev.plotFig PlotId.figure]⟩,
   ⟨[GName.bpplt], [Ev.plotFig PlotId.tsGaussMC]⟩]

/-- The body of `run_dlssm(y, f, mask, D, K, maxiter)` as a statement list:
setup, the update loop run `maxiter` times, then the plots. -/
def run_dlssmStmts (maxiter : ℕ) : List Stmt :=
  dlssmSetup ++ (⟨[GName.range], []⟩ :: repeatList maxiter dlssmIter) ++ dlssmPlots

/-- Straight-line prefix of `run_lssm`.  The third statement,
`A = Gaussian(np.zeros(D), diagonal(alpha), ...)`, resolves the callee
`Gaussian` first, and that name is unbound in the module. -/
def lssmSetup : List Stmt :=
  [⟨[GName.np], []⟩,
   ⟨[GName.Gamma], [Ev.construct NodeId.alpha]⟩,
   ⟨[GName.Gaussian, GName.np, GName.diagonal], [Ev.construct NodeId.A]⟩,
   ⟨[GName.np], [Ev.initNode NodeId.A]⟩,
   ⟨[GName.GaussianMarkovChain, GName.np], [Ev.construct NodeId.X]⟩,
   ⟨[GName.np], [Ev.initNode NodeId.X]⟩,
   ⟨[GName.Gamma], [Ev.construct NodeId.gamma]⟩,
   ⟨[GName.Gaussian, GName.np, GName.diagonal], [Ev.construct NodeId.C]⟩,
   ⟨[GName.np], [Ev.initNode NodeId.C]⟩,
   ⟨[GName.Gamma], [Ev.construct NodeId.tau]⟩,
   ⟨[GName.Dot], [Ev.construct NodeId.CX]⟩,
   ⟨[GName.Normal], [Ev.construct NodeId.Y]⟩,
   ⟨[GName.transformations], [Ev.mkRotation RotId.rotA]⟩,
   ⟨[GName.transformations], [Ev.mkRotation RotId.rotX]⟩,
   ⟨[GName.transformations], [Ev.mkRotation RotId.rotC]⟩,
   ⟨[GName.transformations], [Ev.mkRotation RotId.R]⟩,
   ⟨[], [Ev.observe]⟩,
   ⟨[GName.VB], [Ev.vb]⟩]

/-- One iteration of the `run_lssm` loop:
`Q.update(X, A, alpha, C, gamma, tau)` then `R.rotate()`. -/
def lssmIter : List Stmt :=
  [⟨[], [Ev.update NodeId.X, Ev.update NodeId.A, Ev.update NodeId.alpha,
         Ev.update NodeId.C, Ev.update NodeId.gamma, Ev.update NodeId.tau]⟩,
   ⟨[], [Ev.doRotate RotId.R]⟩]

/-- Plotting epilogue of `run_lssm`. -/
def lssmPlots : List Stmt :=
  [⟨[GName.plt], [Ev.plotFig PlotId.figure]⟩,
   ⟨[GName.bpplt], [Ev.plotFig PlotId.tsNormal]⟩,
   ⟨[GName.bpplt], [Ev.plotFig PlotId.tsLine]⟩,
   ⟨[GName.bpplt], [Ev.plotFig PlotId.tsDots]⟩]

/-- The body of `run_lssm(y, f, mask, D, maxiter)` as a statement list. -/
def run_lssmStmts (maxiter : ℕ) : List Stmt :=
  lssmSetup ++ (⟨[GName.range], []⟩ :: repeatList maxiter lssmIter) ++ lssmPlots

/-- The data-setup statements of `run` after the optional seeding: the
`M`/`N` assignments, the `simulate_drifting_lssm` call, `random.mask`, the
missing window `mask[:,70:120] = False`, and `y[~mask] = np.nan`. -/
def runPreStmts : List Stmt :=
  [⟨[], []⟩, ⟨[], []⟩,
   ⟨[GName.simulate_drifting_lssm], [Ev.simulate]⟩,
   ⟨[GName.random], [Ev.maskSetup]⟩,
   ⟨[], [Ev.maskSetup]⟩,
   ⟨[GName.np], []⟩]

/-- The body of `run(drift, seed, maxiter)`: optional `np.random.seed`,
the data setup, then the dispatch on `drift` with the callee body inlined.
`seedSome` models `seed is not None`. -/
def runStmts (drift seedSome : Bool) (maxiter : ℕ) : List Stmt :=
  (if seedSome then [⟨[GName.np], [Ev.seed]⟩] else [])
  ++ runPreStmts
  ++ (if drift
      then ⟨[GName.run_dlssm], []⟩ :: run_dlssmStmts maxiter
      else ⟨[GName.run_lssm], []⟩ :: run_lssmStmts maxiter)

/-- Events of the `run_dlssm` setup statements. -/
def dlssmSetupEv : List Ev := evsOf dlssmSetup

/-- Events of one `run_dlssm` loop iteration. -/
def dlssmIterEv : List Ev := evsOf dlssmIter

/-- Events of the `run_dlssm` plotting epilogue. -/
def dlssmPlotsEv : List Ev := evsOf dlssmPlots

/-- Full event trace of a successful `run_dlssm` body with `maxiter = m`. -/
def dlssmBodyEv (m : ℕ) : List Ev :=
  dlssmSetupEv ++ (repeatList m dlssmIterEv ++ dlssmPlotsEv)

/-- Full event trace of `run(drift=True, ...)`. -/
def runTraceTrue (s : Bool) (m : ℕ) : List Ev :=
  (if s then [Ev.seed] else [])
    ++ (Ev.simulate :: Ev.maskSetup :: Ev.maskSetup :: dlssmBodyEv m)

/-- Phase rank of an event in the three-step structure of `run`: data setup
(seed 0, simulate 1, mask 2), model building and inference (3), plotting
(4). -/
def evPhase : Ev → ℕ
  | Ev.seed => 0
  | Ev.simulate => 1
  | Ev.maskSetup => 2
  | Ev.construct _ => 3
  | Ev.initNode _ => 3
  | Ev.observe => 3
  | Ev.vb => 3
  | Ev.update _ => 3
  | Ev.printLine _ => 3
  | Ev.mkRotation _ => 3
  | Ev.doRotate _ => 3
  | Ev.plotFig _ => 4

/-- Ordering of events by phase. -/
abbrev phaseLe (a b : Ev) : Prop := evPhase a ≤ evPhase b

/-- Is the event a `Q.update(...)` call. -/
def isUpdateEv : Ev → Bool
  | Ev.update _ => true
  | _ => false

/-- Is the event a rotation construction or a rotation application. -/
def isRotEv : Ev → Bool
  | Ev.mkRotation _ => true
  | Ev.doRotate _ => true
  | _ => false

/-- A trace fits the model distinguished by `marker` when it constructs the
marker node of that model graph and constructs the VB inference machine.
`NodeId.BS` occurs only in the drifting-dynamics graph, `NodeId.CX` only in
the fixed-dynamics graph. -/
abbrev fitsModel (marker : NodeId) (tr : List Ev) : Prop :=
  Ev.construct marker ∈ tr ∧ Ev.vb ∈ tr

/-- The update order of one `run_dlssm` iteration. -/
def updCycle : List Ev :=
  [Ev.update NodeId.X, Ev.update NodeId.S, Ev.update NodeId.A,
   Ev.update NodeId.alpha, Ev.update NodeId.B, Ev.update NodeId.beta,
   Ev.update NodeId.C, Ev.update NodeId.gamma, Ev.update NodeId.tau]

/-- The first statement of `run(drift=True, seed=42, maxiter=0)`:
`np.random.seed(seed)`. -/
def runStmt0 : Stmt := ⟨[GName.np], [Ev.seed]⟩

/-- The statements of `run(drift=True, seed=42, maxiter=0)` after the first. -/
def runTail0 : List Stmt := (runStmts true true 0).drop 1

/-- A library semantics under which the very first external call of `run`
raises an exception. -/
def semBoom : Stmt → Option PyErr :=
  fun s => if s = runStmt0 then some (PyErr.libError 7) else none

/-!  Numeric model of `simulate_drifting_lssm`. -/

/-- `np.linspace(s, e, num)` sample number `k` (with `endpoint=True`). -/
def linspace (s e : ℚ) (num k : ℕ) : ℚ :=
  if num ≤ 1 then s else s + (k : ℚ) * (e - s) / ((num : ℚ) - 1)

/-- The angular speed `w = 1/l` used at loop index `n` of the dynamics
construction, where `l` runs over `np.linspace(5, 1, num=N-1)`. -/
def wdrift (N n : ℕ) : ℚ := 1 / linspace 5 1 (N - 1) n

/-- The drifting dynamics matrix `a[n]`:
rotation by `w` in the first two latent coordinates. -/
def aMat (qcos qsin : ℚ → ℚ) (N n : ℕ) : Matrix (Fin 3) (Fin 3) ℚ :=
  !![qcos (wdrift N n), -(qsin (wdrift N n)), 0;
     qsin (wdrift N n), qcos (wdrift N n), 0;
     0, 0, 1]

/-- The mixing matrix `c = np.random.randn(M, D)` with `D = 3`, drawn
row-major from the random stream `g` starting at offset 0. -/
def cMat (g : ℕ → ℚ) (M : ℕ) : Matrix (Fin M) (Fin 3) ℚ :=
  Matrix.of fun i j => g (3 * i.val + j.val)

/-- The latent trajectory: `x[0] = 10*np.random.randn(D)` (drawn right
after `c`, at offset `3*M`), and `x[n+1] = np.dot(a[n], x[n]) +
np.random.randn(D)`, with iteration `n` of the loop drawing its innovation
at offset `4*M + 3 + n*(3+M)` (each iteration consumes `3 + M` draws: the
innovation, then the observation noise of column `n+1`). -/
def xTraj (qcos qsin : ℚ → ℚ) (g : ℕ → ℚ) (M N : ℕ) : ℕ → Fin 3 → ℚ
  | 0 => fun d => 10 * g (3 * M + d.val)
  | n + 1 => fun d =>
      (aMat qcos qsin N n).mulVec (xTraj qcos qsin g M N n) d
        + g (4 * M + 3 + n * (3 + M) + d.val)

/-- The observation noise draw added (scaled by 3) to `f[mIdx, n]`:
column 0 draws right after `x[0]`, column `n+1` draws right after the
innovation of `x[n+1]`. -/
def yNoise (g : ℕ → ℚ) (M n mIdx : ℕ) : ℚ :=
  if n = 0 then g (3 * M + 3 + mIdx)
  else g (4 * M + 3 + (n - 1) * (3 + M) + 3 + mIdx)

/-- The noiseless projection `f[:, n] = np.dot(c, x[n])`. -/
def fSim (qcos qsin : ℚ → ℚ) (g : ℕ → ℚ) (M N : ℕ) : Fin M → Fin N → ℚ :=
  fun i n => (cMat g M).mulVec (xTraj qcos qsin g M N n.val) i

/-- The observations `y[:, n] = f[:, n] + 3*np.random.randn(M)`. -/
def ySim (qcos qsin : ℚ → ℚ) (g : ℕ → ℚ) (M N : ℕ) : Fin M → Fin N → ℚ :=
  fun i n => fSim qcos qsin g M N i n + 3 * yNoise g M n.val i.val

/-- `simulate_drifting_lssm(M, N)`: returns the pair `(y, f)` of `M × N`
matrices, as functions of the abstracted trig functions and random
stream. -/
def simulate_drifting_lssm (qcos qsin : ℚ → ℚ) (g : ℕ → ℚ) (M N : ℕ) :
    (Fin M → Fin N → ℚ) × (Fin M → Fin N → ℚ) :=
  (ySim qcos qsin g M N, fSim qcos qsin g M N)

/-- The mask used by `run` after the window assignment
`mask[:,70:120] = False` applied to the `random.mask(M, N, p=0.8)` draw
`mask0`; `run` uses `M = 10`, `N = 200`. -/
def maskFinal (mask0 : Fin 10 → Fin 200 → Bool) : Fin 10 → Fin 200 → Bool :=
  fun i n => if 70 ≤ n.val ∧ n.val < 120 then false else mask0 i n

/-- The observation matrix after `y[~mask] = np.nan`: `none` models NaN,
entries with a `true` mask keep their simulated values. -/
def yMasked (qcos qsin : ℚ → ℚ) (g : ℕ → ℚ)
    (mask0 : Fin 10 → Fin 200 → Bool) : Fin 10 → Fin 200 → Option ℚ :=
  fun i n =>
    if maskFinal mask0 i n
    then some ((simulate_drifting_lssm qcos qsin g 10 200).1 i n)
    else none

/-- State of the NumPy global pseudo-random generator: the stream of draws
it will produce and the position of the next draw. -/
structure RngState where
  gen : ℕ → ℚ
  pos : ℕ

/-- Number of `randn` draws `simulate_drifting_lssm(M, N)` consumes:
`M*3` for `c`, `3` for `x[0]`, `M` for `y[:,0]`, and `3 + M` per loop
iteration. -/
def simDrawCount (M N : ℕ) : ℕ := 4 * M + 3 + (N - 1) * (3 + M)

/-- Data phase of `run` followed by the inference call, modelled from the
spec where it leaves this file.  Modelled from the spec: `random.mask` and
the VB engine live in the external library (outside `src/`); per the spec
the fitted posteriors are a deterministic function of the observed data,
the mask and the platform random-number generator, so `maskOf` maps the
PRNG state at the `random.mask` call to the drawn mask, and `engine` maps
the masked data, the mask and the PRNG state at the inference call to the
fitted posteriors.  `np.random.seed(seed)` resets the generator state
before any draw whenever `seed` is not `None`. -/
def runFull {P : Type} (seedFun : ℕ → ℕ → ℚ)
    (maskOf : RngState → Fin 10 → Fin 200 → Bool)
    (engine : (Fin 10 → Fin 200 → Option ℚ) → (Fin 10 → Fin 200 → Bool) →
      RngState → P)
    (qcos qsin : ℚ → ℚ) (seed : Option ℕ) (st0 : RngState) :
    ((Fin 10 → Fin 200 → ℚ) × (Fin 10 → Fin 200 → ℚ))
      × (Fin 10 → Fin 200 → Bool) × P :=
  let st1 := match seed with
    | some s => RngState.mk (seedFun s) 0
    | none => st0
  let g : ℕ → ℚ := fun k => st1.gen (st1.pos + k)
  let yf := simulate_drifting_lssm qcos qsin g 10 200
  let st2 : RngState := RngState.mk st1.gen (st1.pos + simDrawCount 10 200)
  let mask0 := maskOf st2
  let st3 : RngState := RngState.mk st2.gen (st2.pos + 10 * 200)
  let mask := maskFinal mask0
  let ym := fun (i : Fin 10) (n : Fin 200) =>
    if mask i n then some (yf.1 i n) else none
  (yf, mask, engine ym mask st3)

/-- Sites inside `simulate_drifting_lssm` where an index is taken. -/
inductive SimSite where
  | aWrite | x0 | f0 | y0 | loopBody
deriving DecidableEq

/-- Runtime failures of `simulate_drifting_lssm`: a negative dimension
passed to `np.empty` (for `a`), a negative `num` passed to `np.linspace`,
or an out-of-bounds index at one of the sites. -/
inductive SimErr where
  | negDim
  | negLinspaceNum
  | oob (s : SimSite)
deriving DecidableEq

/-- The allocation and indexing guards of `simulate_drifting_lssm(M, N)`,
in program order: `a = np.empty((N-1, D, D))` (negative first dimension
when `N = 0`), `np.linspace(5, 1, num=N-1)` (negative `num`), the writes
`a[n]` for `n` below `N-1`, the assignments `x[0]`, `f[:,0]`, `y[:,0]`
(column 0 must exist), and the accesses `a[n]`, `x[n]`, `x[n+1]`,
`f[:,n+1]`, `y[:,n+1]` inside the dynamics loop.  Returns the first
failure, or `none` when every operation is in bounds. -/
def simCheck (M N : ℕ) : Option SimErr :=
  if (N : ℤ) - 1 < 0 then some SimErr.negDim
  else if (N : ℤ) - 1 < 0 then some SimErr.negLinspaceNum
  else if ((List.range (N - 1)).all fun n => decide (n < N - 1)) = false then
    some (SimErr.oob SimSite.aWrite)
  else if N = 0 then some (SimErr.oob SimSite.x0)
  else if N = 0 then some (SimErr.oob SimSite.f0)
  else if N = 0 then some (SimErr.oob SimSite.y0)
  else if ((List.range (N - 1)).all fun n =>
      decide (n < N - 1) && decide (n < N) && decide (n + 1 < N)) = false then
    some (SimErr.oob SimSite.loopBody)
  else none

/-- The identity on `ℚ`, standing in for a concrete trig function in
witnesses. -/
def qid : ℚ → ℚ := fun x => x

/-- A concrete random stream for witnesses. -/
def gq : ℕ → ℚ := fun k => (k : ℚ)

/-- The all-visible random mask. -/
def mTrue : Fin 10 → Fin 200 → Bool := fun _ _ => true

/-- The all-missing random mask. -/
def mFalse : Fin 10 → Fin 200 → Bool := fun _ _ => false

theorem mem_repeatList {α : Type} {e : α} {m : ℕ} {l : List α}
    (h : e ∈ repeatList m l) : e ∈ l := by
  induction m with
  | zero => cases h
  | succ k ih =>
    rcases List.mem_append.mp h with h1 | h1
    · exact h1
    · exact ih h1

theorem evsOf_append (l1 l2 : List Stmt) :
    evsOf (l1 ++ l2) = evsOf l1 ++ evsOf l2 := by
  induction l1 with
  | nil => rfl
  | cons s rest ih => simp [evsOf, ih, List.append_assoc]

theorem evsOf_repeatList (m : ℕ) (l : List Stmt) :
    evsOf (repeatList m l) = repeatList m (evsOf l) := by
  induction m with
  | zero => rfl
  | succ k ih => simp [repeatList, evsOf_append, ih]

theorem filter_repeatList (p : Ev → Bool) (m : ℕ) (l : List Ev) :
    (repeatList m l).filter p = repeatList m (l.filter p) := by
  induction m with
  | zero => rfl
  | succ k ih => simp [repeatList, List.filter_append, ih]

theorem count_repeatList (a : Ev) (m : ℕ) (l : List Ev) :
    (repeatList m l).count a = m * l.count a := by
  induction m with
  | zero => simp [repeatList]
  | succ k ih => simp [repeatList, List.count_append, ih, Nat.succ_mul, Nat.add_comm]

theorem runExt_ok_of_sem_none (sem : Stmt → Option PyErr) (l : List Stmt)
    (h : ∀ s ∈ l, sem s = none) : runExt sem l = (evsOf l, none) := by
  induction l with
  | nil => rfl
  | cons s rest ih =>
    have hs : sem s = none := h s (List.mem_cons_self s rest)
    have hr : runExt sem rest = (evsOf rest, none) :=
      ih fun x hx => h x (List.mem_cons_of_mem s hx)
    simp [runExt, hs, hr, evsOf]

theorem runExt_ok_append (sem : Stmt → Option PyErr) (l1 l2 : List Stmt)
    (h : (runExt sem l1).2 = none) :
    runExt sem (l1 ++ l2)
      = ((runExt sem l1).1 ++ (runExt sem l2).1, (runExt sem l2).2) := by
  induction l1 with
  | nil => simp [runExt]
  | cons s rest ih =>
    cases hs : sem s with
    | some e => simp [runExt, hs] at h
    | none =>
      have h2 : (runExt sem rest).2 = none := by
        simpa [runExt, hs] using h
      simp [runExt, hs, ih h2, List.append_assoc]

theorem runExt_err_append (sem : Stmt → Option PyErr) (l1 l2 : List Stmt)
    (e : PyErr) (h : (runExt sem l1).2 = some e) :
    runExt sem (l1 ++ l2) = runExt sem l1 := by
  induction l1 with
  | nil => simp [runExt] at h
  | cons s rest ih =>
    cases hs : sem s with
    | some e2 => simp [runExt, hs]
    | none =>
      have h2 : (runExt sem rest).2 = some e := by
        simpa [runExt, hs] using h
      simp [runExt, hs, ih h2]

theorem runExt_propagate (sem : Stmt → Option PyErr) (l1 : List Stmt)
    (st : Stmt) (l2 : List Stmt) (e : PyErr)
    (h1 : ∀ s ∈ l1, sem s = none) (h2 : sem st = some e) :
    (runExt sem (l1 ++ st :: l2)).2 = some e := by
  induction l1 with
  | nil => simp [runExt, h2]
  | cons s rest ih =>
    have hs : sem s = none := h1 s (List.mem_cons_self s rest)
    have := ih fun x hx => h1 x (List.mem_cons_of_mem s hx)
    simp [runExt, hs, this]

theorem runExt_snd_append (sem : Stmt → Option PyErr) (l1 l2 : List Stmt)
    (h : (runExt sem l1).2 = none) :
    (runExt sem (l1 ++ l2)).2 = (runExt sem l2).2 := by
  rw [runExt_ok_append sem l1 l2 h]

theorem runExt_snd_cons (sem : Stmt → Option PyErr) (st : Stmt) (l : List Stmt)
    (h : sem st = none) :
    (runExt sem (st :: l)).2 = (runExt sem l).2 := by
  simp [runExt, h]

theorem lookup_ok_dlssmSetup : ∀ s ∈ dlssmSetup, lookupFail fileEnv s = none := by
  decide

theorem lookup_ok_dlssmIter : ∀ s ∈ dlssmIter, lookupFail fileEnv s = none := by
  decide

theorem lookup_ok_dlssmPlots : ∀ s ∈ dlssmPlots, lookupFail fileEnv s = none := by
  decide

theorem lookup_ok_run_dlssmStmts (m : ℕ) :
    ∀ s ∈ run_dlssmStmts m, lookupFail fileEnv s = none := by
  intro s hs
  unfold run_dlssmStmts at hs
  rcases List.mem_append.mp hs with h | h
  · rcases List.mem_append.mp h with h1 | h1
    · exact lookup_ok_dlssmSetup s h1
    · rcases List.mem_cons.mp h1 with h2 | h2
      · subst h2; decide
      · exact lookup_ok_dlssmIter s (mem_repeatList h2)
  · exact lookup_ok_dlssmPlots s h

theorem exec_run_dlssm (m : ℕ) :
    execStmts fileEnv (run_dlssmStmts m) = (dlssmBodyEv m, none) := by
  rw [execStmts,
    runExt_ok_of_sem_none (lookupFail fileEnv) (run_dlssmStmts m)
      (lookup_ok_run_dlssmStmts m)]
  unfold run_dlssmStmts dlssmBodyEv dlssmSetupEv dlssmIterEv dlssmPlotsEv
  simp [evsOf_append, evsOf_repeatList, evsOf]

theorem lookup_ok_runStmts_true (s : Bool) (m : ℕ) :
    ∀ x ∈ runStmts true s m, lookupFail fileEnv x = none := by
  intro x hx
  unfold runStmts at hx
  rcases List.mem_append.mp hx with h | h
  · rcases List.mem_append.mp h with h1 | h1
    · cases s
      · simp at h1
      · simp at h1
        subst h1
        decide
    · exact (by decide : ∀ y ∈ runPreStmts, lookupFail fileEnv y = none) x h1
  · have h1 : x ∈ (⟨[GName.run_dlssm], []⟩ : Stmt) :: run_dlssmStmts m := by
      simpa using h
    rcases List.mem_cons.mp h1 with h2 | h2
    · subst h2; decide
    · exact lookup_ok_run_dlssmStmts m x h2

theorem exec_run_true (s : Bool) (m : ℕ) :
    execStmts fileEnv (runStmts true s m) = (runTraceTrue s m, none) := by
  rw [execStmts,
    runExt_ok_of_sem_none (lookupFail fileEnv) (runStmts true s m)
      (lookup_ok_runStmts_true s m)]
  unfold runStmts runTraceTrue dlssmBodyEv runPreStmts run_dlssmStmts
    dlssmSetupEv dlssmIterEv dlssmPlotsEv
  cases s <;> simp [evsOf_append, evsOf_repeatList, evsOf]

theorem exec_lssmSetup :
    execStmts fileEnv lssmSetup
      = ([Ev.construct NodeId.alpha], some (PyErr.nameError GName.Gaussian)) := by
  decide

theorem exec_run_lssm (m : ℕ) :
    execStmts fileEnv (run_lssmStmts m)
      = ([Ev.construct NodeId.alpha], some (PyErr.nameError GName.Gaussian)) := by
  have h2 : (runExt (lookupFail fileEnv) lssmSetup).2
      = some (PyErr.nameError GName.Gaussian) := by
    rw [show runExt (lookupFail fileEnv) lssmSetup = execStmts fileEnv lssmSetup
        from rfl, exec_lssmSetup]
  have h3 : runExt (lookupFail fileEnv)
      (lssmSetup ++ ((⟨[GName.range], []⟩ : Stmt) :: repeatList m lssmIter))
      = runExt (lookupFail fileEnv) lssmSetup :=
    runExt_err_append _ _ _ _ h2
  have h4 : (runExt (lookupFail fileEnv)
      (lssmSetup ++ ((⟨[GName.range], []⟩ : Stmt) :: repeatList m lssmIter))).2
      = some (PyErr.nameError GName.Gaussian) := by
    rw [h3]; exact h2
  rw [show execStmts fileEnv (run_lssmStmts m)
      = runExt (lookupFail fileEnv) (run_lssmStmts m) from rfl]
  unfold run_lssmStmts
  rw [runExt_err_append _ _ _ _ h4, h3]
  exact exec_lssmSetup

theorem exec_run_false_err (s : Bool) (m : ℕ) :
    (execStmts fileEnv (runStmts false s m)).2
      = some (PyErr.nameError GName.Gaussian) := by
  rw [show execStmts fileEnv (runStmts false s m)
      = runExt (lookupFail fileEnv) (runStmts false s m) from rfl]
  unfold runStmts
  rw [runExt_snd_append _ _ _ (by cases s <;> decide)]
  have hred : (if false = true
      then (⟨[GName.run_dlssm], []⟩ : Stmt) :: run_dlssmStmts m
      else (⟨[GName.run_lssm], []⟩ : Stmt) :: run_lssmStmts m)
      = (⟨[GName.run_lssm], []⟩ : Stmt) :: run_lssmStmts m := by simp
  rw [hred, runExt_snd_cons _ _ _ (by decide)]
  exact congrArg Prod.snd (exec_run_lssm m)

theorem dlssmSetupEv_phase : ∀ e ∈ dlssmSetupEv, evPhase e = 3 := by decide

theorem dlssmIterEv_phase : ∀ e ∈ dlssmIterEv, evPhase e = 3 := by decide

theorem dlssmPlotsEv_phase : ∀ e ∈ dlssmPlotsEv, evPhase e = 4 := by decide

theorem pairwise_const_phase (l : List Ev) (c : ℕ) (h : ∀ e ∈ l, evPhase e = c) :
    l.Pairwise phaseLe := by
  induction l with
  | nil => exact List.Pairwise.nil
  | cons a t ih =>
    refine List.Pairwise.cons ?_ (ih fun e he => h e (List.mem_cons_of_mem a he))
    intro b hb
    unfold phaseLe
    rw [h a (List.mem_cons_self a t), h b (List.mem_cons_of_mem a hb)]

theorem pairwise_body (m : ℕ) : (dlssmBodyEv m).Pairwise phaseLe := by
  unfold dlssmBodyEv
  rw [List.pairwise_append]
  refine ⟨pairwise_const_phase _ 3 dlssmSetupEv_phase, ?_, ?_⟩
  · rw [List.pairwise_append]
    refine ⟨pairwise_const_phase _ 3
        (fun e he => dlssmIterEv_phase e (mem_repeatList he)),
      pairwise_const_phase _ 4 dlssmPlotsEv_phase, ?_⟩
    intro a ha b hb
    unfold phaseLe
    rw [dlssmIterEv_phase a (mem_repeatList ha), dlssmPlotsEv_phase b hb]
    omega
  · intro a ha b hb
    unfold phaseLe
    rw [dlssmSetupEv_phase a ha]
    rcases List.mem_append.mp hb with h1 | h1
    · rw [dlssmIterEv_phase b (mem_repeatList h1)]
    · rw [dlssmPlotsEv_phase b h1]; omega

theorem body_phase_ge (m : ℕ) : ∀ e ∈ dlssmBodyEv m, 3 ≤ evPhase e := by
  intro e he
  unfold dlssmBodyEv at he
  rcases List.mem_append.mp he with h | h
  · rw [dlssmSetupEv_phase e h]
  · rcases List.mem_append.mp h with h1 | h1
    · rw [dlssmIterEv_phase e (mem_repeatList h1)]
    · rw [dlssmPlotsEv_phase e h1]; omega

theorem pairwise_tail (m : ℕ) :
    (Ev.simulate :: Ev.maskSetup :: Ev.maskSetup :: dlssmBodyEv m).Pairwise
      phaseLe := by
  have hb := body_phase_ge m
  refine List.Pairwise.cons ?_ (List.Pairwise.cons ?_
    (List.Pairwise.cons ?_ (pairwise_body m)))
  · intro b hbm
    rcases List.mem_cons.mp hbm with h | h
    · subst h; decide
    · rcases List.mem_cons.mp h with h1 | h1
      · subst h1; decide
      · have h3 := hb b h1
        show evPhase Ev.simulate ≤ evPhase b
        have h4 : evPhase Ev.simulate = 1 := rfl
        omega
  · intro b hbm
    rcases List.mem_cons.mp hbm with h | h
    · subst h; decide
    · have h3 := hb b h
      show evPhase Ev.maskSetup ≤ evPhase b
      have h4 : evPhase Ev.maskSetup = 2 := rfl
      omega
  · intro b hbm
    have h3 := hb b hbm
    show evPhase Ev.maskSetup ≤ evPhase b
    have h4 : evPhase Ev.maskSetup = 2 := rfl
    omega

theorem pairwise_runTraceTrue (s : Bool) (m : ℕ) :
    (runTraceTrue s m).Pairwise phaseLe := by
  unfold runTraceTrue
  rw [List.pairwise_append]
  refine ⟨?_, pairwise_tail m, ?_⟩
  · cases s <;> simp
  · intro a ha b hb
    cases s
    · simp at ha
    · simp at ha
      subst ha
      show evPhase Ev.seed ≤ evPhase b
      have h4 : evPhase Ev.seed = 0 := rfl
      omega

theorem observe_mem_body (m : ℕ) : Ev.observe ∈ dlssmBodyEv m := by
  unfold dlssmBodyEv
  exact List.mem_append.mpr (Or.inl (by decide))

theorem vb_mem_body (m : ℕ) : Ev.vb ∈ dlssmBodyEv m := by
  unfold dlssmBodyEv
  exact List.mem_append.mpr (Or.inl (by decide))

theorem constructBS_mem_body (m : ℕ) : Ev.construct NodeId.BS ∈ dlssmBodyEv m := by
  unfold dlssmBodyEv
  exact List.mem_append.mpr (Or.inl (by decide))

theorem plotFigure_mem_body (m : ℕ) : Ev.plotFig PlotId.figure ∈ dlssmBodyEv m := by
  unfold dlssmBodyEv
  exact List.mem_append.mpr (Or.inr (List.mem_append.mpr (Or.inr (by decide))))

theorem mem_runTraceTrue_of_mem_body (s : Bool) (m : ℕ) (e : Ev)
    (h : e ∈ dlssmBodyEv m) : e ∈ runTraceTrue s m := by
  unfold runTraceTrue
  exact List.mem_append.mpr (Or.inr (by simp [h]))

/-- C1 (amended): every call of `run` first simulates data from the
drifting linear Gaussian state-space model and then fits exactly one of the
two competing models, selected by the `drift` flag: with `drift=True` it
builds the drifting-dynamics graph (marker node `BS`), constructs the VB
inference machine and plots the results; with `drift=False` the attempted
fixed-dynamics fit aborts with `NameError: Gaussian` before any inference
or plotting. -/
theorem run_fits_selected_model :
    ∀ (s : Bool) (m : ℕ),
      ((execStmts fileEnv (runStmts true s m)).2 = none
        ∧ Ev.simulate ∈ (execStmts fileEnv (runStmts true s m)).1
        ∧ fitsModel NodeId.BS ((execStmts fileEnv (runStmts true s m)).1)
        ∧ Ev.plotFig PlotId.figure ∈ (execStmts fileEnv (runStmts true s m)).1)
      ∧ (execStmts fileEnv (runStmts false s m)).2
          = some (PyErr.nameError GName.Gaussian) := by
  intro s m
  refine ⟨?_, exec_run_false_err s m⟩
  rw [exec_run_true s m]
  refine ⟨rfl, ?_, ⟨?_, ?_⟩, ?_⟩
  · unfold runTraceTrue
    simp
  · exact mem_runTraceTrue_of_mem_body s m _ (constructBS_mem_body m)
  · exact mem_runTraceTrue_of_mem_body s m _ (vb_mem_body m)
  · exact mem_runTraceTrue_of_mem_body s m _ (plotFigure_mem_body m)

/-- C1 counterexample: at the concrete input `drift=True`, `seed=42`,
`maxiter=1` the execution of `run` succeeds but its trace never constructs
the fixed-dynamics model (marker node `CX`), so a single call does not fit
two competing models as the claim states. -/
theorem run_single_model_counterexample :
    (execStmts fileEnv (runStmts true true 1)).2 = none
    ∧ ¬ fitsModel NodeId.CX ((execStmts fileEnv (runStmts true true 1)).1) := by
  decide

/-- C2: with `drift=True` every execution of `run` succeeds and its event
trace is ordered by phase - the simulation strictly precedes all model
construction, observation and updates, and all of those strictly precede
every plotting call (phase ranks 0-4 are monotone along the trace); the
trace contains the simulation, an `observe`, the `VB` construction and a
plot.  At the failing input `drift=False` (seed 42, maxiter 50) the run
instead aborts with `NameError: Gaussian` during model construction. -/
theorem run_three_phase_order :
    (∀ (s : Bool) (m : ℕ),
      (execStmts fileEnv (runStmts true s m)).2 = none
      ∧ Ev.simulate ∈ (execStmts fileEnv (runStmts true s m)).1
      ∧ Ev.observe ∈ (execStmts fileEnv (runStmts true s m)).1
      ∧ Ev.vb ∈ (execStmts fileEnv (runStmts true s m)).1
      ∧ Ev.plotFig PlotId.figure ∈ (execStmts fileEnv (runStmts true s m)).1
      ∧ ((execStmts fileEnv (runStmts true s m)).1).Pairwise phaseLe)
    ∧ (execStmts fileEnv (runStmts false true 50)).2
        = some (PyErr.nameError GName.Gaussian) := by
  refine ⟨?_, exec_run_false_err true 50⟩
  intro s m
  rw [exec_run_true s m]
  refine ⟨rfl, ?_, ?_, ?_, ?_, pairwise_runTraceTrue s m⟩
  · unfold runTraceTrue
    simp
  · exact mem_runTraceTrue_of_mem_body s m _ (observe_mem_body m)
  · exact mem_runTraceTrue_of_mem_body s m _ (vb_mem_body m)
  · exact mem_runTraceTrue_of_mem_body s m _ (plotFigure_mem_body m)

/-- C3: for every `maxiter`, `run_dlssm` terminates with `Y.observe`
called exactly once, before the `VB` construction (the observation lies in
the trace prefix preceding the `VB` event), and its update events are
exactly `maxiter` repetitions of the cycle X, S, A, alpha, B, beta, C,
gamma, tau; `run_lssm`, however, aborts with `NameError: Gaussian` before
its `observe` call, for every `maxiter`. -/
theorem run_updates_schedule :
    (∀ m : ℕ,
      (execStmts fileEnv (run_dlssmStmts m)).2 = none
      ∧ ((execStmts fileEnv (run_dlssmStmts m)).1).count Ev.observe = 1
      ∧ Ev.observe ∈ ((execStmts fileEnv (run_dlssmStmts m)).1).takeWhile
          (fun e => decide (e ≠ Ev.vb))
      ∧ ((execStmts fileEnv (run_dlssmStmts m)).1).filter isUpdateEv
          = repeatList m updCycle)
    ∧ ∀ m : ℕ, (execStmts fileEnv (run_lssmStmts m)).2
        = some (PyErr.nameError GName.Gaussian) := by
  constructor
  · intro m
    rw [exec_run_dlssm m]
    refine ⟨rfl, ?_, ?_, ?_⟩
    · unfold dlssmBodyEv
      rw [List.count_append, List.count_append, count_repeatList]
      have h1 : dlssmSetupEv.count Ev.observe = 1 := by decide
      have h2 : dlssmIterEv.count Ev.observe = 0 := by decide
      have h3 : dlssmPlotsEv.count Ev.observe = 0 := by decide
      rw [h1, h2, h3]
      simp
    · have h : (dlssmBodyEv m).takeWhile (fun e => decide (e ≠ Ev.vb))
          = [Ev.construct NodeId.alpha, Ev.construct NodeId.A,
             Ev.initNode NodeId.A, Ev.construct NodeId.S,
             Ev.initNode NodeId.S, Ev.construct NodeId.beta,
             Ev.construct NodeId.B, Ev.initNode NodeId.B,
             Ev.construct NodeId.BS, Ev.construct NodeId.X,
             Ev.initNode NodeId.X, Ev.construct NodeId.gamma,
             Ev.construct NodeId.C, Ev.initNode NodeId.C,
             Ev.construct NodeId.tau, Ev.construct NodeId.F,
             Ev.construct NodeId.Y, Ev.observe] := rfl
      rw [h]
      decide
    · unfold dlssmBodyEv
      rw [List.filter_append, List.filter_append, filter_repeatList]
      have h1 : dlssmSetupEv.filter isUpdateEv = [] := by decide
      have h2 : dlssmIterEv.filter isUpdateEv = updCycle := by decide
      have h3 : dlssmPlotsEv.filter isUpdateEv = [] := by decide
      rw [h1, h2, h3]
      simp
  · exact fun m => congrArg Prod.snd (exec_run_lssm m)

/-- C7: no function in the file handles, intercepts or transforms errors:
for every semantics of the external calls, if the statements before some
statement `st` of `run` succeed and `st` raises exception `e`, then the
whole execution of `run` surfaces exactly `e` to the caller. -/
theorem run_error_propagation :
    ∀ (d sd : Bool) (m : ℕ) (sem : Stmt → Option PyErr)
      (l1 : List Stmt) (st : Stmt) (l2 : List Stmt) (e : PyErr),
      runStmts d sd m = l1 ++ st :: l2 →
      (∀ s ∈ l1, sem s = none) →
      sem st = some e →
      (runExt sem (runStmts d sd m)).2 = some e := by
  intro d sd m sem l1 st l2 e hsplit h1 h2
  rw [hsplit]
  exact runExt_propagate sem l1 st l2 e h1 h2

/-- C7 witness: under a library semantics that makes the very first
external call of `run(drift=True, seed=42, maxiter=0)` raise, the whole
run returns exactly that exception. -/
theorem run_error_propagation_witness :
    (runExt semBoom (runStmts true true 0)).2 = some (PyErr.libError 7) :=
  run_error_propagation true true 0 semBoom [] runStmt0 runTail0
    (PyErr.libError 7) (by decide)
    (by intro s h; exact absurd h (List.not_mem_nil s)) (by decide)

/-- C8: the names `Gaussian`, `diagonal`, `Dot` and `Normal` are unbound in
the module, and for every `maxiter` the execution of `run_lssm` aborts with
`NameError: Gaussian` having emitted no observation, no `VB` construction
and no update - the error is raised before any observation or inference. -/
theorem run_lssm_raises_name_error :
    (GName.Gaussian ∉ fileEnv ∧ GName.diagonal ∉ fileEnv
      ∧ GName.Dot ∉ fileEnv ∧ GName.Normal ∉ fileEnv)
    ∧ ∀ m : ℕ,
      (execStmts fileEnv (run_lssmStmts m)).2
          = some (PyErr.nameError GName.Gaussian)
      ∧ Ev.observe ∉ (execStmts fileEnv (run_lssmStmts m)).1
      ∧ Ev.vb ∉ (execStmts fileEnv (run_lssmStmts m)).1
      ∧ ∀ n : NodeId, Ev.update n ∉ (execStmts fileEnv (run_lssmStmts m)).1 := by
  refine ⟨by decide, ?_⟩
  intro m
  rw [exec_run_lssm m]
  refine ⟨rfl, by decide, by decide, ?_⟩
  intro n h
  simp at h

/-- C9: the local flag `rotate` of `run_dlssm` is the constant `False`, and
for every `maxiter` the execution of `run_dlssm` neither constructs any
rotation object nor performs any `rotate()` call. -/
theorem run_dlssm_no_rotation :
    dlssmRotateFlag = false
    ∧ ∀ (m : ℕ) (r : RotId),
      Ev.mkRotation r ∉ (execStmts fileEnv (run_dlssmStmts m)).1
      ∧ Ev.doRotate r ∉ (execStmts fileEnv (run_dlssmStmts m)).1 := by
  refine ⟨rfl, ?_⟩
  intro m r
  rw [exec_run_dlssm m]
  have hno : ∀ e ∈ dlssmBodyEv m, isRotEv e = false := by
    intro e he
    unfold dlssmBodyEv at he
    rcases List.mem_append.mp he with h | h
    · exact (by decide : ∀ x ∈ dlssmSetupEv, isRotEv x = false) e h
    · rcases List.mem_append.mp h with h1 | h1
      · exact (by decide : ∀ x ∈ dlssmIterEv, isRotEv x = false) e
          (mem_repeatList h1)
      · exact (by decide : ∀ x ∈ dlssmPlotsEv, isRotEv x = false) e h1
  constructor
  · intro hmem
    have h := hno _ hmem
    simp [isRotEv] at h
  · intro hmem
    have h := hno _ hmem
    simp [isRotEv] at h

/-- C4: for `M, N ≥ 1`, `simulate_drifting_lssm(M, N)` returns a pair
`(y, f)` of `M × N` matrices (the shapes are carried by the types) in
which every column `f[:, n]` is the mixing matrix `c` applied to the
latent state `x[n]`, and `y` is `f` plus the scaled observation-noise
draws. -/
theorem simulate_shape_structure (qcos qsin : ℚ → ℚ) (g : ℕ → ℚ) (M N : ℕ)
    (hM : 1 ≤ M) (hN : 1 ≤ N) :
    (∀ (i : Fin M) (n : Fin N),
      (simulate_drifting_lssm qcos qsin g M N).2 i n
        = ∑ d : Fin 3, cMat g M i d * xTraj qcos qsin g M N n.val d)
    ∧ (∀ (i : Fin M) (n : Fin N),
      (simulate_drifting_lssm qcos qsin g M N).1 i n
        = (simulate_drifting_lssm qcos qsin g M N).2 i n
            + 3 * yNoise g M n.val i.val) := by
  constructor
  · intro i n
    simp [simulate_drifting_lssm, fSim, Matrix.mulVec, Matrix.dotProduct,
      Fin.sum_univ_three]
  · intro i n
    rfl

/-- C4 witness at `M = N = 2` with concrete trig functions and stream. -/
theorem simulate_shape_structure_witness :
    (1 : ℕ) ≤ 2
    ∧ ((∀ (i : Fin 2) (n : Fin 2),
        (simulate_drifting_lssm qid qid gq 2 2).2 i n
          = ∑ d : Fin 3, cMat gq 2 i d * xTraj qid qid gq 2 2 n.val d)
      ∧ (∀ (i : Fin 2) (n : Fin 2),
        (simulate_drifting_lssm qid qid gq 2 2).1 i n
          = (simulate_drifting_lssm qid qid gq 2 2).2 i n
              + 3 * yNoise gq 2 n.val i.val)) :=
  ⟨by decide, simulate_shape_structure qid qid gq 2 2 (by decide) (by decide)⟩

/-- C5: the mask used by `run` is a `10 × 200` boolean matrix; after the
window assignment, every entry of every column with `70 ≤ n < 120` is
`False`, and after `y[~mask] = np.nan` the masked observation matrix is
NaN (`none`) exactly where the mask is `False` and keeps the simulated
value where the mask is `True`. -/
theorem run_mask_missing_window (qcos qsin : ℚ → ℚ) (g : ℕ → ℚ)
    (mask0 : Fin 10 → Fin 200 → Bool) :
    (∀ (i : Fin 10) (n : Fin 200), 70 ≤ n.val → n.val < 120 →
      maskFinal mask0 i n = false)
    ∧ (∀ (i : Fin 10) (n : Fin 200), maskFinal mask0 i n = false →
      yMasked qcos qsin g mask0 i n = none)
    ∧ (∀ (i : Fin 10) (n : Fin 200), maskFinal mask0 i n = true →
      yMasked qcos qsin g mask0 i n
        = some ((simulate_drifting_lssm qcos qsin g 10 200).1 i n)) := by
  refine ⟨?_, ?_, ?_⟩
  · intro i n h1 h2
    unfold maskFinal
    rw [if_pos ⟨h1, h2⟩]
  · intro i n h
    unfold yMasked
    rw [h]
    rfl
  · intro i n h
    unfold yMasked
    rw [h]
    rfl

/-- C5 witness: concrete instances inside the missing window (column 80)
and outside it (column 5), under the all-true and all-false random masks. -/
theorem run_mask_missing_window_witness :
    maskFinal mTrue (0 : Fin 10) (80 : Fin 200) = false
    ∧ yMasked qid qid gq mFalse (0 : Fin 10) (5 : Fin 200) = none
    ∧ yMasked qid qid gq mTrue (0 : Fin 10) (5 : Fin 200)
        = some ((simulate_drifting_lssm qid qid gq 10 200).1 0 5) :=
  ⟨(run_mask_missing_window qid qid gq mTrue).1 0 80 (by decide) (by decide),
   (run_mask_missing_window qid qid gq mFalse).2.1 0 5 (by decide),
   (run_mask_missing_window qid qid gq mTrue).2.2 0 5 (by decide)⟩

/-- C6: two executions of `run` with the same non-None seed and the same
arguments produce identical simulated data `(y, f)`, identical masks and
identical fitted posteriors, whatever the incoming state of the global
random generator was, because `np.random.seed(seed)` resets the generator
before any draw. -/
theorem run_reproducible {P : Type} (seedFun : ℕ → ℕ → ℚ)
    (maskOf : RngState → Fin 10 → Fin 200 → Bool)
    (engine : (Fin 10 → Fin 200 → Option ℚ) → (Fin 10 → Fin 200 → Bool) →
      RngState → P)
    (qcos qsin : ℚ → ℚ) (s : ℕ) (st1 st2 : RngState) :
    runFull seedFun maskOf engine qcos qsin (some s) st1
      = runFull seedFun maskOf engine qcos qsin (some s) st2 := rfl

/-- C10 (amended): `simulate_drifting_lssm` requires `N ≥ 1`: for every
`M ≥ 0` and `N ≥ 1` every allocation and every index access is in bounds,
whereas for `N = 0` the allocation `a = np.empty((N-1, D, D))` receives a
negative first dimension and fails before `x[0]` is ever reached. -/
theorem simulate_N_precondition (M N : ℕ) (hN : 1 ≤ N) :
    simCheck M N = none ∧ simCheck M 0 = some SimErr.negDim := by
  constructor
  · have h1 : ¬ ((N : ℤ) - 1 < 0) := by omega
    have h2 : ((List.range (N - 1)).all fun n => decide (n < N - 1)) = true := by
      rw [List.all_eq_true]
      intro n hn
      rw [List.mem_range] at hn
      exact decide_eq_true hn
    have h3 : ¬ (N = 0) := by omega
    have h4 : ((List.range (N - 1)).all fun n =>
        decide (n < N - 1) && decide (n < N) && decide (n + 1 < N)) = true := by
      rw [List.all_eq_true]
      intro n hn
      rw [List.mem_range] at hn
      have hb1 : n < N := by omega
      have hb2 : n + 1 < N := by omega
      simp [hn, hb1, hb2]
    unfold simCheck
    rw [if_neg h1, if_neg h1, if_neg (by simp [h2]),
      if_neg h3, if_neg h3, if_neg h3, if_neg (by simp [h4])]
  · rfl

/-- C10 witness at `M = 10`, `N = 1`. -/
theorem simulate_N_precondition_witness :
    (1 : ℕ) ≤ 1
    ∧ (simCheck 10 1 = none ∧ simCheck 10 0 = some SimErr.negDim) :=
  ⟨by decide, simulate_N_precondition 10 1 (by decide)⟩

/-- C10 counterexample: at `N = 0` the first failure of
`simulate_drifting_lssm` is the negative-dimension allocation of `a`, not
an out-of-bounds index at the assignment `x[0]` as the claim states - the
execution never reaches `x[0]`. -/
theorem simulate_N0_fails_at_alloc_not_x0 :
    simCheck 10 0 = some SimErr.negDim
    ∧ simCheck 10 0 ≠ some (SimErr.oob SimSite.x0) := by
  decide

end LssmDrift
